import Mathlib

set_option maxRecDepth 16384

/-!
Verification of the `My-dockerizer` CLI (source: `src/scanner.mjs`) against its
natural-language specification.

The JavaScript source is shallowly embedded as follows:

* The filesystem is represented by its depth-first file enumeration: a list of
  `(absolute path, content)` pairs.  Recursive directory walks
  (`scanEntireDirectory`, `findFileRecursively`) become traversals of that list
  restricted to paths under the project root; the list order is the
  depth-first visit order of the walk.
* Structured file contents that the code parses (`JSON.parse` on
  `package.json`, `yaml.load` on `web-deployment.yaml`) are embedded as
  structured constructors of `FileContent`; an unparseable file is a content
  the corresponding parser rejects.
* External processes (`docker build`, `docker run`, `kubectl ...`) are
  embedded by passing their observable results (exit codes, apply outcomes,
  pod-status text samples) as explicit parameters; the commands issued are
  recorded in the result.
* JavaScript string primitives (`endsWith`, `includes`, `toLowerCase`,
  `trim`, first-occurrence `replace`, `split(/\s+/)`) are embedded as the
  `str...`/`js...` functions below, defined over the character list of the
  string.
* A JavaScript `async` function that can reject is embedded as a function
  into `Except`; a function that always resolves returns a plain value.
-/

/-- Character class of the JavaScript `\s`-style whitespace relevant here
(space, tab, newline, carriage return). -/
def isWsChar (c : Char) : Bool :=
  c == ' ' || c == '\t' || c == '\n' || c == '\r'

/-- Embedding of JavaScript `s.startsWith(p)`. -/
def strStartsWith (s p : String) : Bool :=
  decide (p.data <+: s.data)

/-- Embedding of JavaScript `s.endsWith(p)`. -/
def strEndsWith (s p : String) : Bool :=
  decide (p.data <:+ s.data)

/-- Embedding of JavaScript `s.includes(p)`. -/
def strIncludes (s p : String) : Bool :=
  decide (p.data <:+: s.data)

/-- Embedding of JavaScript `s.toLowerCase()` (ASCII range, which is all the
code compares). -/
def strToLower (s : String) : String :=
  ⟨s.data.map Char.toLower⟩

/-- Characters of a string with leading and trailing whitespace removed. -/
def jsTrimChars (l : List Char) : List Char :=
  ((l.dropWhile isWsChar).reverse.dropWhile isWsChar).reverse

/-- Embedding of JavaScript `s.trim()`. -/
def jsTrim (s : String) : String :=
  ⟨jsTrimChars s.data⟩

/-- Replace the first occurrence of `pat` by `rep` in `s` (character lists).
If `pat` does not occur, the list is unchanged. -/
def replaceFirstChars (s pat rep : List Char) : List Char :=
  if pat.isPrefixOf s then rep ++ s.drop pat.length
  else
    match s with
    | [] => []
    | c :: cs => c :: replaceFirstChars cs pat rep

/-- Embedding of JavaScript `s.replace(pat, rep)` with a string pattern: only
the first occurrence is replaced. -/
def jsReplace (s pat rep : String) : String :=
  ⟨replaceFirstChars s.data pat.data rep.data⟩

/-- Worker for `jsSplitWs`: splits a character list at runs of whitespace,
keeping the (possibly empty) fragments before, between and after the runs.
While `inWs` is set the walk is inside a whitespace run whose fragment has
already been emitted (and `cur` is empty). -/
def jsSplitWsGo : List Char → String → Bool → List String
  | [], cur, inWs => if inWs then [""] else [cur]
  | c :: cs, cur, inWs =>
    if isWsChar c then
      if inWs then jsSplitWsGo cs "" true else cur :: jsSplitWsGo cs "" true
    else jsSplitWsGo cs (cur.push c) false

/-- Embedding of JavaScript `s.split(/\s+/)`. -/
def jsSplitWs (s : String) : List String :=
  jsSplitWsGo s.data "" false

/-- Split a character list at every occurrence of `sep`, JavaScript
`split(sep)` style (used by the code only with single-character
separators). -/
def splitOnChar (sep : Char) : List Char → List (List Char)
  | [] => [[]]
  | c :: cs =>
    if c = sep then [] :: splitOnChar sep cs
    else
      match splitOnChar sep cs with
      | [] => [[c]]
      | t :: ts => (c :: t) :: ts

/-- Embedding of JavaScript `s.split('\n')`. -/
def jsSplitNl (s : String) : List String :=
  (splitOnChar '\n' s.data).map (fun l => ⟨l⟩)

/-- Join character-list fragments with a slash. -/
def joinSlash : List (List Char) → List Char
  | [] => []
  | [x] => x
  | x :: xs => x ++ '/' :: joinSlash xs

/-- Last path segment of a slash-separated path: the file's own name. -/
def baseName (p : String) : String :=
  ⟨(splitOnChar '/' p.data).getLastD []⟩

/-- Embedding of Node's `path.dirname` for the slash-separated paths the model
uses: everything before the last separator, `"."` if there is none. -/
def dirName (p : String) : String :=
  let parts := splitOnChar '/' p.data
  if parts.length ≤ 1 then "." else ⟨joinSlash parts.dropLast⟩

/-- One container entry of a parsed deployment manifest.  Only the two fields
the code reads or writes are modelled; `yaml.load`/`yaml.dump` round-trips the
remaining fields untouched. -/
structure KubeContainer where
  image : String
  imagePullPolicy : Option String
deriving DecidableEq, Repr

/-- Parsed shape of a deployment manifest as accessed by the code
(`deploymentYaml.spec.template.spec.containers`). -/
structure DeploymentSpec where
  containers : List KubeContainer
deriving DecidableEq, Repr

/-- Content of one file.  Contents the code parses structurally are embedded
as structured constructors; `invalidJson` stands for a `package.json` that
`JSON.parse` rejects, and a non-`deployment` content at `web-deployment.yaml`
stands for a file `yaml.load`-ing which does not yield the accessed shape. -/
inductive FileContent where
  | text (s : String)
  | packageJson (dependencies : Option (List String))
  | invalidJson
  | deployment (d : DeploymentSpec)
deriving DecidableEq, Repr

/-- A filesystem: the depth-first enumeration of all files as
`(absolute path, content)` pairs. -/
abbrev FS := List (String × FileContent)

/-- Content stored at path `p`, if any. -/
def lookupFile (fs : FS) (p : String) : Option FileContent :=
  (fs.find? (fun e => e.1 = p)).map (·.2)

/-- Embedding of `fs.pathExists`. -/
def pathExists (fs : FS) (p : String) : Bool :=
  fs.any (fun e => e.1 = p)

/-- Embedding of `fs.writeFile`: overwrite in place if the path exists,
otherwise create the file. -/
def writeFile (fs : FS) (p : String) (c : FileContent) : FS :=
  if pathExists fs p then fs.map (fun e => if e.1 = p then (p, c) else e)
  else fs ++ [(p, c)]

/-- Embedding of `scanEntireDirectory(directory)`: the depth-first list of all
files under `root`, i.e. the entries of the global filesystem whose path lies
under `root`. -/
def scanEntireDirectory (root : String) (fs : FS) : FS :=
  fs.filter (fun e => strStartsWith e.1 (root ++ "/"))

/-- Embedding of `findFileRecursively(directory, fileName)`: the first file of
the depth-first walk whose own name equals `fileName` case-insensitively
(`file.toLowerCase() === lowerFileName`), or `none`. -/
def findFileRecursively (root fileName : String) (fs : FS) : Option String :=
  ((scanEntireDirectory root fs).find?
    (fun e => strToLower (baseName e.1) = strToLower fileName)).map (·.1)

/-- Embedding of `scanYAMLFiles(directory)`: classify every file under the
directory by suffix, `service.yaml` first, otherwise `deployment.yaml`
(`else if`), returning `(serviceYAMLs, deploymentYAMLs)`. -/
def scanYAMLFiles (root : String) (fs : FS) : List String × List String :=
  let all := (scanEntireDirectory root fs).map (·.1)
  (all.filter (fun f => strEndsWith f "service.yaml"),
   all.filter (fun f => !strEndsWith f "service.yaml" && strEndsWith f "deployment.yaml"))

/-- Modelled from the spec: `templates/nodejs.Dockerfile` is referenced by
`generateDockerfile` but is missing from the repository snapshot.  Per the
spec (§4.2, §8) the template is a fixed Node.js build file containing the
expose-port line `EXPOSE 3000` and the start-command line
`CMD ["npm", "start"]`, each occurring once. -/
def nodejsTemplate : String :=
  "FROM node:14\n\nWORKDIR /usr/src/app\n\nCOPY package*.json ./\n\nRUN npm install\n\nCOPY . .\n\nEXPOSE 3000\n\nCMD [\"npm\", \"start\"]\n"

/-- Content of `templates/java.Dockerfile`. -/
def javaTemplate : String :=
  "# Base image\nFROM openjdk:11-jdk\n\n# Set the working directory\nWORKDIR /app\n\n# Copy the Maven project files\nCOPY pom.xml ./\nCOPY src ./src\n\n# Package the application\nRUN mvn package\n\n# Expose the application port (default for Spring Boot)\nEXPOSE 8080\n\n# Start the application\nCMD [\"java\", \"-jar\", \"target/myapp.jar\"]"

/-- Content of `templates/python.Dockerfile`. -/
def pythonTemplate : String :=
  "# Base image\nFROM python:3.9\n\n# Set the working directory\nWORKDIR /app\n\n# Copy and install dependencies\nCOPY requirements.txt ./\nRUN pip install --no-cache-dir -r requirements.txt\n\n# Copy the rest of the application code\nCOPY . .\n\n# Expose the application port (if applicable)\nEXPOSE 5000\n\n# Start the application (modify the command as per your app)\nCMD [\"python\", \"app.py\"]"

/-- Template file `templates/<projectType>.Dockerfile` read by the
non-Node.js branch of `generateDockerfile`; `none` models the read throwing
because no such template exists. -/
def templateFor (projectType : String) : Option String :=
  if projectType = "java" then some javaTemplate
  else if projectType = "python" then some pythonTemplate
  else none

/-- Result of `analyzeNodeProject`: the parsed `package.json` data the code
reads (the `dependencies` key, if present, as the list of declared dependency
names) and the raw text of `index.js`. -/
structure NodeAnalysis where
  dependencies : Option (List String)
  indexJsContent : String
deriving DecidableEq, Repr

/-- Raw text read from a file, for files the code consumes as text; absent
files read as the branch defaults of `analyzeNodeProject` (empty). -/
def textAt (fs : FS) (p : String) : String :=
  match lookupFile fs p with
  | some (.text s) => s
  | _ => ""

/-- Embedding of `analyzeNodeProject(projectPath)`: reads
`<root>/package.json` (if present) through `JSON.parse`, which throws on
invalid JSON, and reads `<root>/index.js` (if present) as text. -/
def analyzeNodeProject (fs : FS) (root : String) : Except Unit NodeAnalysis :=
  match lookupFile fs (root ++ "/package.json") with
  | none => .ok ⟨none, textAt fs (root ++ "/index.js")⟩
  | some (.packageJson deps) => .ok ⟨deps, textAt fs (root ++ "/index.js")⟩
  | some _ => .error ()

/-- Failure of `generateDockerfile`: the template read throwing (no template
for the project type) or `JSON.parse` of `package.json` throwing. -/
inductive GenErr where
  | templateMissing
  | jsonParseFailed
deriving DecidableEq, Repr

/-- Customisation of the nodejs template performed inside
`generateDockerfile`: if `package.json` declares a dependency on `express`,
`EXPOSE 3000` is replaced by `EXPOSE 8000` and `CMD ["npm", "start"]` by
`CMD ["node", "index.js"]`; then if `index.js` contains `app.listen(8000)`,
`EXPOSE 3000` is replaced by `EXPOSE 8000` again.  The result is the trimmed
content that is written. -/
def nodejsDockerfileContent (a : NodeAnalysis) : String :=
  let hasExpress :=
    match a.dependencies with
    | some deps => deps.contains "express"
    | none => false
  let c1 :=
    if hasExpress then
      jsReplace (jsReplace nodejsTemplate "EXPOSE 3000" "EXPOSE 8000")
        "CMD [\"npm\", \"start\"]" "CMD [\"node\", \"index.js\"]"
    else nodejsTemplate
  let c2 :=
    if strIncludes a.indexJsContent "app.listen(8000)" then
      jsReplace c1 "EXPOSE 3000" "EXPOSE 8000"
    else c1
  jsTrim c2

/-- Embedding of `generateDockerfile(projectType, projectPath)`.  If
`<root>/Dockerfile` already exists its path is returned with no write.
Otherwise, for `nodejs`, the analysed project customises the template
(`nodejsDockerfileContent`) and the trimmed content is written; for any
other type the type's template is written, the read throwing when no such
template exists. -/
def generateDockerfile (projectType : String) (fs : FS) (root : String) :
    Except GenErr (FS × String) :=
  let dockerfilePath := root ++ "/Dockerfile"
  if pathExists fs dockerfilePath then .ok (fs, dockerfilePath)
  else if projectType = "nodejs" then
    match analyzeNodeProject fs root with
    | .error _ => .error .jsonParseFailed
    | .ok a =>
      .ok (writeFile fs dockerfilePath (.text (nodejsDockerfileContent a)), dockerfilePath)
  else
    match templateFor projectType with
    | some t => .ok (writeFile fs dockerfilePath (.text (jsTrim t)), dockerfilePath)
    | none => .error .templateMissing

/-- Failure of `buildDockerImage`: no build file found, or the `docker build`
subprocess exiting non-zero. -/
inductive BuildErr where
  | buildFileNotFound
  | buildFailed (exitCode : Nat)
deriving DecidableEq, Repr

/-- Embedding of `buildDockerImage(projectPath, projectName, imageTag)`.  The
build file is located with `findFileRecursively(projectPath, 'Dockerfile')`;
absence rejects with `buildFileNotFound` (source message: `Dockerfile not
found in project directory`).  Otherwise `docker build` runs with the located
file's directory as build context; its exit code `buildExit` is the external
process result, non-zero rejecting with `buildFailed`.  On success the issued
build command (`docker build -t <name>:<tag> <buildContext>`) is returned. -/
def buildDockerImage (root projectName imageTag : String) (buildExit : Nat)
    (fs : FS) : Except BuildErr String :=
  match findFileRecursively root "Dockerfile" fs with
  | none => .error .buildFileNotFound
  | some dockerfilePath =>
    if buildExit = 0 then
      .ok ("docker build -t " ++ projectName ++ ":" ++ imageTag ++ " " ++
        dirName dockerfilePath)
    else .error (.buildFailed buildExit)

/-- Observable behaviour of one `deployDocker` invocation: the command string
handed to `exec`, the outcome of the returned promise, and what the
asynchronous `exec` callback logged when it eventually ran. -/
structure DeployDockerRun where
  command : String
  outcome : Except String Unit
  callbackLoggedError : Bool
  callbackLoggedSuccess : Bool
deriving Repr

/-- Embedding of `deployDocker(projectPath, projectName, imageTag, remote,
user, password)`.  The run command (ssh-wrapped when a remote host is given)
is issued via `exec` with a callback; the `async` function then returns, so
its promise resolves (`outcome = .ok ()`) before and regardless of the
command's later result `cmdResult`, which only determines what the callback
logs.  The `password` argument is accepted and unused, as in the source. -/
def deployDocker (projectName imageTag : String)
    (remote user _password : Option String)
    (cmdResult : Except String String) : DeployDockerRun :=
  let command :=
    match remote, user with
    | some host, some u =>
      "ssh " ++ u ++ "@" ++ host ++ " \"docker run -d -p 8000:8000 " ++
        projectName ++ ":" ++ imageTag ++ "\""
    | _, _ => "docker run -d -p 8000:8000 " ++ projectName ++ ":" ++ imageTag
  { command := command
    outcome := .ok ()
    callbackLoggedError := cmdResult matches .error _
    callbackLoggedSuccess := cmdResult matches .ok _ }

/-- Deployment manifest text fabricated by `generateKubernetesYAML`.  The
source builds this template with a leading and a trailing newline and writes
`deploymentYAML.trim()`; the embedding is the trimmed text that reaches the
file. -/
def kubeDeploymentYAML (projectName imageTag : String) : String :=
  "apiVersion: apps/v1\nkind: Deployment\nmetadata:\n  name: " ++ projectName ++
  "-deployment\nspec:\n  replicas: 1\n  selector:\n    matchLabels:\n      app: " ++
  projectName ++
  "\n  template:\n    metadata:\n      labels:\n        app: " ++ projectName ++
  "\n    spec:\n      containers:\n      - name: " ++ projectName ++
  "\n        image: " ++ projectName ++ ":" ++ imageTag ++
  "\n        ports:\n        - containerPort: 80"

/-- Service manifest text fabricated by `generateKubernetesYAML`, trimmed as
written (see `kubeDeploymentYAML`). -/
def kubeServiceYAML (projectName : String) : String :=
  "apiVersion: v1\nkind: Service\nmetadata:\n  name: " ++ projectName ++
  "-service\nspec:\n  selector:\n    app: " ++ projectName ++
  "\n  type: NodePort\n  ports:\n  - protocol: TCP\n    port: 80\n    targetPort: 80"

/-- Embedding of `generateKubernetesYAML(projectName, imageTag)`: writes the
two fixed manifests into the current working directory, deployment first. -/
def generateKubernetesYAML (projectName imageTag cwd : String) (fs : FS) : FS :=
  writeFile
    (writeFile fs (cwd ++ "/" ++ projectName ++ "-deployment.yaml")
      (.text (kubeDeploymentYAML projectName imageTag)))
    (cwd ++ "/" ++ projectName ++ "-service.yaml")
    (.text (kubeServiceYAML projectName))

/-- Embedding of `updateWebDeploymentImage(projectPath, projectName,
imageTag)`: reads `<root>/web-deployment.yaml`, rewrites every container's
`image` to `<projectName>:<imageTag>` and its `imagePullPolicy` to
`IfNotPresent`, and writes the file back.  A missing file (the read throws)
or one that does not parse to the accessed deployment shape rejects. -/
def updateWebDeploymentImage (fs : FS) (root projectName imageTag : String) :
    Except Unit FS :=
  match lookupFile fs (root ++ "/web-deployment.yaml") with
  | some (.deployment d) =>
    .ok (writeFile fs (root ++ "/web-deployment.yaml")
      (.deployment ⟨d.containers.map (fun _ =>
        ⟨projectName ++ ":" ++ imageTag, some "IfNotPresent"⟩)⟩))
  | some _ => .error ()
  | none => .error ()

/-- Rows of a `kubectl get pods` tabular output as the readiness poll parses
them: split into lines, drop the header line, drop blank lines, split each
remaining line at whitespace runs. -/
def parsePodRows (output : String) : List (List String) :=
  (((jsSplitNl output).drop 1).filter (fun l => !(jsTrim l = ""))).map jsSplitWs

/-- The poll's per-sample verdict: every parsed row's status column
(`columns[2]`; an absent column, like JavaScript `undefined`, is not
`"Running"`) reads exactly `Running`. -/
def allPodsRunning (output : String) : Bool :=
  (parsePodRows output).all (fun r => r[2]? == some "Running")

/-- Failure of the readiness poll (kubectl status queries themselves are
assumed to succeed; their text is the sample). -/
inductive WaitErr where
  | readinessTimeout
deriving DecidableEq, Repr

/-- Iteration `i` of the readiness poll of `waitForPodsReady`, taken at
elapsed time `5 * i` seconds (one sample, then a 5-second sleep).  The loop
body runs while the elapsed seconds are `< timeout`; afterwards the poll
rejects with the timeout error. -/
def waitForPodsReadyFrom (samples : Nat → String) (timeout i : Nat) :
    Except WaitErr Unit :=
  if h : 5 * i < timeout then
    if allPodsRunning (samples i) then .ok ()
    else waitForPodsReadyFrom samples timeout (i + 1)
  else .error .readinessTimeout
termination_by timeout - 5 * i
decreasing_by omega

/-- Embedding of `waitForPodsReady(namespace = 'default', timeout = 300)`:
polls `kubectl get pods -n <namespace>` every 5 seconds (the namespace only
changes the issued command text, not the control flow; sample `i` is the
output observed at elapsed time `5 * i` seconds), succeeding at the first
sample whose rows are all `Running` and rejecting once the timeout has
elapsed. -/
def waitForPodsReady (samples : Nat → String) (timeout : Nat) :
    Except WaitErr Unit :=
  waitForPodsReadyFrom samples timeout 0

/-- Default `timeout` parameter of `waitForPodsReady`, in seconds. -/
def defaultPodTimeout : Nat := 300

/-- External-world results consumed by `deployKubernetes`: the outcome of
each issued `kubectl apply -f <file>`, the pod-status samples of the
readiness poll, and the outcomes of the final status queries. -/
structure KubeEnv where
  applyExitOk : String → Bool
  samples : Nat → String
  getPodsOk : Bool
  getServicesOk : Bool

/-- Failure of `deployKubernetes`. -/
inductive KubeErr where
  | invalidProjectPath
  | webDeploymentUpdateFailed
  | applyFailed (file : String)
  | readinessTimeout
  | podStatusQueryFailed
  | serviceStatusQueryFailed
deriving DecidableEq, Repr

/-- One apply loop of `deployKubernetes` over a bucket of manifest paths:
skips entries whose file does not exist, issues `kubectl apply -f` for the
others in order, and stops at the first failing apply.  Returns the list of
files for which an apply was issued and the first failing file, if any. -/
def applyManifests (env : KubeEnv) (fs : FS) : List String → List String × Option String
  | [] => ([], none)
  | f :: rest =>
    if pathExists fs f then
      if env.applyExitOk f then
        let (issued, failure) := applyManifests env fs rest
        (f :: issued, failure)
      else ([f], some f)
    else applyManifests env fs rest

/-- The apply-and-poll tail of `deployKubernetes`: apply every deployment
manifest, then every service manifest, stopping at the first failing apply;
then run the readiness poll and the two final status queries.  Returns the
overall outcome and the list of files for which `kubectl apply` was
issued. -/
def kubeApplyAndWait (env : KubeEnv) (fs1 : FS) (depBucket svcBucket : List String) :
    Except KubeErr Unit × List String :=
  let dRun := applyManifests env fs1 depBucket
  match dRun.2 with
  | some f => (.error (.applyFailed f), dRun.1)
  | none =>
    let sRun := applyManifests env fs1 svcBucket
    match sRun.2 with
    | some f => (.error (.applyFailed f), dRun.1 ++ sRun.1)
    | none =>
      match waitForPodsReady env.samples defaultPodTimeout with
      | .error _ => (.error .readinessTimeout, dRun.1 ++ sRun.1)
      | .ok _ =>
        if env.getPodsOk then
          if env.getServicesOk then (.ok (), dRun.1 ++ sRun.1)
          else (.error .serviceStatusQueryFailed, dRun.1 ++ sRun.1)
        else (.error .podStatusQueryFailed, dRun.1 ++ sRun.1)

/-- Observable behaviour of one `deployKubernetes` invocation. -/
structure KubeResult where
  fsAfter : FS
  outcome : Except KubeErr Unit
  classified : Bool
  serviceYAMLs : List String
  deploymentYAMLs : List String
  fabricated : Bool
  fabricatedWrites : List (String × String)
  applied : List String

/-- Embedding of the body of `deployKubernetes` after the
`updateWebDeploymentImage` call succeeded: classifies the YAML files under
the project root, fabricates the two default manifests in the working
directory when both buckets are empty (pushing their paths into the
buckets), applies every deployment manifest then every service manifest
sequentially, runs the readiness poll, and finally re-queries pod and
service status (the port extraction of that last step only prints, so only
the queries' own failures are observable). -/
def deployKubernetesManifestPhase (projectName root cwd : String) (fs : FS)
    (env : KubeEnv) : KubeResult :=
  let buckets := scanYAMLFiles root fs
  let fabricate := buckets.1.isEmpty && buckets.2.isEmpty
  let dPath := cwd ++ "/" ++ projectName ++ "-deployment.yaml"
  let sPath := cwd ++ "/" ++ projectName ++ "-service.yaml"
  let fs1 := if fabricate then generateKubernetesYAML projectName "latest" cwd fs else fs
  let svcBucket := if fabricate then buckets.1 ++ [sPath] else buckets.1
  let depBucket := if fabricate then buckets.2 ++ [dPath] else buckets.2
  let fabWrites :=
    if fabricate then
      [(dPath, kubeDeploymentYAML projectName "latest"), (sPath, kubeServiceYAML projectName)]
    else []
  let run := kubeApplyAndWait env fs1 depBucket svcBucket
  { fsAfter := fs1, outcome := run.1, classified := true,
    serviceYAMLs := svcBucket, deploymentYAMLs := depBucket,
    fabricated := fabricate, fabricatedWrites := fabWrites, applied := run.2 }

/-- Embedding of `deployKubernetes(projectName, projectPath)`: validates the
project path, rewrites `web-deployment.yaml` with the `latest` tag (a failure
there is re-thrown before anything else runs), then runs the manifest
phase. -/
def deployKubernetes (projectName root cwd : String) (fs : FS) (env : KubeEnv) :
    KubeResult :=
  if root = "" then
    { fsAfter := fs, outcome := .error .invalidProjectPath, classified := false,
      serviceYAMLs := [], deploymentYAMLs := [], fabricated := false,
      fabricatedWrites := [], applied := [] }
  else
    match updateWebDeploymentImage fs root projectName "latest" with
    | .error _ =>
      { fsAfter := fs, outcome := .error .webDeploymentUpdateFailed,
        classified := false, serviceYAMLs := [], deploymentYAMLs := [],
        fabricated := false, fabricatedWrites := [], applied := [] }
    | .ok fs1 => deployKubernetesManifestPhase projectName root cwd fs1 env

/-- Embedding of the CLI `k8s` branch: the operator-supplied `imageTag` is in
scope at the call site but `deployKubernetes(projectName, projectPath)` is
invoked without it. -/
def deployKubernetesCli (projectName _imageTag root cwd : String) (fs : FS)
    (env : KubeEnv) : KubeResult :=
  deployKubernetes projectName root cwd fs env

/-- What `fs.stat(projectPath)` resolves the scanned path to. -/
inductive PathKind where
  | directory
  | nonDirectory
  | missing
deriving DecidableEq, Repr

/-- Failure of `scanProject` that is re-thrown to the caller. -/
inductive ScanErr where
  | statFailed
  | generationFailed (e : GenErr)
  | buildFileNotFound
  | buildFailed (exitCode : Nat)
deriving DecidableEq, Repr

/-- A build failure as `scanProject` re-throws it. -/
def buildErrToScanErr : BuildErr → ScanErr
  | .buildFileNotFound => .buildFileNotFound
  | .buildFailed c => .buildFailed c

/-- Observable behaviour of one `scanProject` invocation. -/
structure ScanResult where
  fsAfter : FS
  outcome : Except ScanErr Unit
  notADirectoryReported : Bool
  detectedNodeProject : Bool
  reportedUnknownType : Bool
  generatedBuildFile : Bool
  ranBuild : Bool
deriving Repr

/-- Embedding of `scanProject(projectPath, projectName, imageTag)`.  A path
that is not a directory is reported (spinner failure plus log) and the
function returns — it resolves normally.  Otherwise every file under the
root is enumerated; any path whose lowercase form ends in `dockerfile` sets
`dockerFileFound`, any path ending (case-sensitively) in `package.json` sets
`packageJsonFound`.  With a `package.json` the project is treated as Node.js:
the build file is generated when none was found, then the image is built;
failures of either step are re-thrown.  Without one, the unknown project
type is reported and the function resolves without generating or
building. -/
def scanProject (kind : PathKind) (fs : FS) (root projectName imageTag : String)
    (buildExit : Nat) : ScanResult :=
  match kind with
  | .missing =>
    { fsAfter := fs, outcome := .error .statFailed, notADirectoryReported := false,
      detectedNodeProject := false, reportedUnknownType := false,
      generatedBuildFile := false, ranBuild := false }
  | .nonDirectory =>
    { fsAfter := fs, outcome := .ok (), notADirectoryReported := true,
      detectedNodeProject := false, reportedUnknownType := false,
      generatedBuildFile := false, ranBuild := false }
  | .directory =>
    let allFiles := scanEntireDirectory root fs
    let dockerFileFound := allFiles.any (fun e => strEndsWith (strToLower e.1) "dockerfile")
    let packageJsonFound := allFiles.any (fun e => strEndsWith e.1 "package.json")
    if packageJsonFound then
      let genStep : Except GenErr (FS × Bool) :=
        if dockerFileFound then .ok (fs, false)
        else
          match generateDockerfile "nodejs" fs root with
          | .ok (fs2, _) => .ok (fs2, true)
          | .error e => .error e
      match genStep with
      | .error e =>
        { fsAfter := fs, outcome := .error (.generationFailed e),
          notADirectoryReported := false, detectedNodeProject := true,
          reportedUnknownType := false, generatedBuildFile := false, ranBuild := false }
      | .ok (fs2, generated) =>
        { fsAfter := fs2,
          outcome :=
            match buildDockerImage root projectName imageTag buildExit fs2 with
            | .error e => .error (buildErrToScanErr e)
            | .ok _ => .ok (),
          notADirectoryReported := false, detectedNodeProject := true,
          reportedUnknownType := false, generatedBuildFile := generated, ranBuild := true }
    else
      { fsAfter := fs, outcome := .ok (), notADirectoryReported := false,
        detectedNodeProject := false, reportedUnknownType := true,
        generatedBuildFile := false, ranBuild := false }

/-- Project tree containing a file whose name ends in `dockerfile` without
being named `Dockerfile`. -/
def dotDockerfileFS : FS := [("p/sub/my.dockerfile", .text "FROM node")]

/-- Project tree containing a nested file named exactly `Dockerfile`. -/
def nestedDockerfileFS : FS := [("q/app/Dockerfile", .text "FROM node")]

/-- The spec's end-to-end synthesis scenario: `package.json` declaring a
dependency on `express`, `index.js` containing `app.listen(8000)`, no build
file. -/
def expressScenarioFS : FS :=
  [("proj/package.json", .packageJson (some ["express"])),
   ("proj/index.js", .text "app.listen(8000)")]

/-- The express-scenario template after the two `package.json`-triggered
substitutions. -/
def expressSubstituted : String :=
  jsReplace (jsReplace nodejsTemplate "EXPOSE 3000" "EXPOSE 8000")
    "CMD [\"npm\", \"start\"]" "CMD [\"node\", \"index.js\"]"

/-- Project tree whose root holds a parseable `web-deployment.yaml`. -/
def webDeploymentFS : FS :=
  [("p/web-deployment.yaml", .deployment ⟨[⟨"old:1", none⟩]⟩)]

/-- Project tree with no `package.json` anywhere. -/
def noManifestFS : FS := [("p/readme.md", .text "hello")]

/-- Project tree with a root `package.json` and no build file. -/
def bareNodeFS : FS := [("p/package.json", .packageJson none)]

/-- Project tree with a build file named exactly `Dockerfile` at the root. -/
def rootDockerfileFS : FS :=
  [("p/Dockerfile", .text "FROM node"), ("p/package.json", .packageJson none)]

/-- A `kubectl get pods` sample whose single pod row is `Running`. -/
def runningSample : String :=
  "NAME READY STATUS RESTARTS AGE\nweb-1 1/1 Running 0 5s"

/-- A `kubectl get pods` sample whose single pod row is `Pending`. -/
def pendingSample : String :=
  "NAME READY STATUS RESTARTS AGE\nweb-1 0/1 Pending 0 5s"

/-- External environment in which every issued command succeeds and every
pod-status sample reports `Running`. -/
def allOkEnv : KubeEnv :=
  { applyExitOk := fun _ => true, samples := fun _ => runningSample,
    getPodsOk := true, getServicesOk := true }

theorem str_data_append (a b : String) : (a ++ b).data = a.data ++ b.data := by
  cases a; cases b; rfl

theorem strEndsWith_iff {s p : String} :
    strEndsWith s p = true ↔ p.data <:+ s.data := by
  simp [strEndsWith]

theorem strStartsWith_iff {s p : String} :
    strStartsWith s p = true ↔ p.data <+: s.data := by
  simp [strStartsWith]

theorem strIncludes_iff {s p : String} :
    strIncludes s p = true ↔ p.data <:+: s.data := by
  simp [strIncludes]

theorem strEndsWith_append_right {a b p : String} (h : p.data <:+ b.data) :
    strEndsWith (a ++ b) p = true := by
  rw [strEndsWith_iff, str_data_append]
  exact h.trans (List.suffix_append a.data b.data)

theorem strEndsWith_append_short {a b p : String}
    (hlen : p.data.length ≤ b.data.length) (h : ¬ p.data <:+ b.data) :
    strEndsWith (a ++ b) p = false := by
  rw [← Bool.not_eq_true, strEndsWith_iff, str_data_append]
  intro hsuf
  exact h (List.suffix_of_suffix_length_le hsuf (List.suffix_append a.data b.data) hlen)

theorem strEndsWith_append_long {a b p : String}
    (hlen : b.data.length ≤ p.data.length) (h : ¬ b.data <:+ p.data) :
    strEndsWith (a ++ b) p = false := by
  rw [← Bool.not_eq_true, strEndsWith_iff, str_data_append]
  intro hsuf
  exact h (List.suffix_of_suffix_length_le (List.suffix_append a.data b.data) hsuf hlen)

theorem strStartsWith_append_append {root x y : String} (h : x.data <+: y.data) :
    strStartsWith (root ++ y) (root ++ x) = true := by
  rw [strStartsWith_iff, str_data_append, str_data_append]
  exact (List.prefix_append_right_inj root.data).mpr h

theorem strToLower_append (a b : String) :
    strToLower (a ++ b) = strToLower a ++ strToLower b := by
  apply String.ext
  rw [str_data_append]
  simp [strToLower, str_data_append]

theorem strEndsWith_toLower_append {a b p : String}
    (h : p.data <:+ (strToLower b).data) :
    strEndsWith (strToLower (a ++ b)) p = true := by
  rw [strToLower_append]
  exact strEndsWith_append_right h

theorem pathExists_iff {fs : FS} {p : String} :
    pathExists fs p = true ↔ ∃ e ∈ fs, e.1 = p := by
  simp [pathExists]

theorem pathExists_writeFile_self (fs : FS) (p : String) (c : FileContent) :
    pathExists (writeFile fs p c) p = true := by
  unfold writeFile
  split
  · next h =>
    rcases pathExists_iff.mp h with ⟨e, he, hep⟩
    refine pathExists_iff.mpr ⟨(p, c), ?_, rfl⟩
    refine List.mem_map.mpr ⟨e, he, ?_⟩
    simp [hep]
  · exact pathExists_iff.mpr ⟨(p, c), by simp, rfl⟩

theorem writeFile_map_fst {fs : FS} {p : String} (c : FileContent)
    (h : pathExists fs p = true) :
    (writeFile fs p c).map Prod.fst = fs.map Prod.fst := by
  unfold writeFile
  rw [if_pos h]
  rw [List.map_map]
  apply List.map_congr_left
  intro e _
  by_cases hep : e.1 = p
  · simp [hep]
  · simp [hep]

theorem lookupFile_map_overwrite {fs : FS} {p : String} (c : FileContent)
    (h : pathExists fs p = true) :
    lookupFile (fs.map (fun e => if e.1 = p then (p, c) else e)) p = some c := by
  induction fs with
  | nil => simp [pathExists] at h
  | cons e rest ih =>
    by_cases hep : e.1 = p
    · simp [lookupFile, List.find?, hep]
    · have hrest : pathExists rest p = true := by
        rcases pathExists_iff.mp h with ⟨x, hx, hxp⟩
        rcases List.mem_cons.mp hx with hx1 | hx2
        · exact absurd (hx1 ▸ hxp) hep
        · exact pathExists_iff.mpr ⟨x, hx2, hxp⟩
      have hh := ih hrest
      simpa [lookupFile, List.find?, hep] using hh

theorem lookupFile_append_new {fs : FS} {p : String} (c : FileContent)
    (h : pathExists fs p = false) :
    lookupFile (fs ++ [(p, c)]) p = some c := by
  induction fs with
  | nil => simp [lookupFile, List.find?]
  | cons e rest ih =>
    rw [pathExists, List.any_cons, Bool.or_eq_false_iff] at h
    obtain ⟨h1, h2⟩ := h
    have hep : ¬ e.1 = p := by simpa using h1
    have hh := ih (by rw [pathExists]; exact h2)
    simpa [lookupFile, List.find?, hep] using hh

theorem lookupFile_writeFile_self (fs : FS) (p : String) (c : FileContent) :
    lookupFile (writeFile fs p c) p = some c := by
  unfold writeFile
  by_cases h : pathExists fs p = true
  · rw [if_pos h]
    exact lookupFile_map_overwrite c h
  · rw [if_neg h]
    rw [Bool.not_eq_true] at h
    exact lookupFile_append_new c h

theorem lookupFile_mem {fs : FS} {p : String} {c : FileContent}
    (h : lookupFile fs p = some c) : (p, c) ∈ fs := by
  unfold lookupFile at h
  rcases Option.map_eq_some'.mp h with ⟨e, he, hec⟩
  have hm := List.mem_of_find?_eq_some he
  have hp := List.find?_some he
  have : e.1 = p := by simpa using hp
  rcases e with ⟨e1, e2⟩
  cases this
  cases hec
  exact hm

theorem scanEntireDirectory_map_fst (root : String) (fs : FS) :
    (scanEntireDirectory root fs).map Prod.fst =
      (fs.map Prod.fst).filter (fun p => strStartsWith p (root ++ "/")) := by
  unfold scanEntireDirectory
  induction fs with
  | nil => simp
  | cons e rest ih =>
    by_cases he : strStartsWith e.1 (root ++ "/") = true
    · simp [List.filter_cons, he, ih]
    · simp only [Bool.not_eq_true] at he
      simp [List.filter_cons, he, ih]

theorem scanYAMLFiles_congr {root : String} {fs fs2 : FS}
    (h : fs.map Prod.fst = fs2.map Prod.fst) :
    scanYAMLFiles root fs = scanYAMLFiles root fs2 := by
  unfold scanYAMLFiles
  have : (scanEntireDirectory root fs).map Prod.fst =
      (scanEntireDirectory root fs2).map Prod.fst := by
    rw [scanEntireDirectory_map_fst, scanEntireDirectory_map_fst, h]
  simp only [this]

/-- C2 counterexample: in a tree whose only file is `p/sub/my.dockerfile` — a
name that case-insensitively ends in `dockerfile` without being named
`Dockerfile` — the Image Builder nevertheless fails with
`BuildFileNotFound`, so "fails iff no file whose name case-insensitively
ends in dockerfile exists" is false at this input. -/
theorem C2_counterexample :
    ¬ (buildDockerImage "p" "n" "t" 0 dotDockerfileFS = .error .buildFileNotFound ↔
        ¬ ∃ e ∈ scanEntireDirectory "p" dotDockerfileFS,
          strEndsWith (strToLower (baseName e.1)) "dockerfile" = true) := by
  intro h
  exact h.mp rfl
    ⟨("p/sub/my.dockerfile", .text "FROM node"), by decide, by decide⟩

/-- C2 (amended): the Image Builder fails with `BuildFileNotFound` if and
only if no file whose name case-insensitively equals `Dockerfile` exists
anywhere under the project tree; when such a file exists, the first match of
the depth-first walk is selected and its containing directory is the build
context of the issued `docker build` command. -/
theorem C2_amended (root projectName imageTag : String) (buildExit : Nat) (fs : FS) :
    (buildDockerImage root projectName imageTag buildExit fs = .error .buildFileNotFound ↔
      ∀ e ∈ scanEntireDirectory root fs, ¬ strToLower (baseName e.1) = "dockerfile") ∧
    (∀ p, findFileRecursively root "Dockerfile" fs = some p → buildExit = 0 →
      buildDockerImage root projectName imageTag buildExit fs =
        .ok ("docker build -t " ++ projectName ++ ":" ++ imageTag ++ " " ++ dirName p)) := by
  have hlow : strToLower "Dockerfile" = "dockerfile" := rfl
  constructor
  · unfold buildDockerImage findFileRecursively
    cases hf : (scanEntireDirectory root fs).find?
        (fun e => strToLower (baseName e.1) = strToLower "Dockerfile") with
    | none =>
      have hnone := List.find?_eq_none.mp hf
      simp only [Option.map_none']
      constructor
      · intro _ e he
        have := hnone e he
        simpa [hlow] using this
      · intro _
        trivial
    | some e =>
      have hmem := List.mem_of_find?_eq_some hf
      have hpred : strToLower (baseName e.1) = "dockerfile" := by
        have := List.find?_some hf
        simpa [hlow] using this
      simp only [Option.map_some']
      constructor
      · intro hb
        by_cases h0 : buildExit = 0
        · simp [h0] at hb
        · simp [h0] at hb
      · intro hall
        exact absurd hpred (hall e hmem)
  · intro p hp h0
    unfold buildDockerImage
    rw [hp]
    simp [h0]

/-- C2 amended-claim witness at a concrete tree: the nested
`q/app/Dockerfile` is found and its directory `q/app` becomes the build
context. -/
theorem C2_amended_witness :
    buildDockerImage "q" "img" "v1" 0 nestedDockerfileFS =
      .ok "docker build -t img:v1 q/app" :=
  (C2_amended "q" "img" "v1" 0 nestedDockerfileFS).2 "q/app/Dockerfile" rfl rfl

/-- C3 counterexample: for an existing non-directory path the scan resolves
normally (`outcome = .ok ()`), refuting "the failure is raised to the caller
rather than the scan completing normally"; the condition is only reported. -/
theorem C3_counterexample :
    (scanProject .nonDirectory [] "p" "n" "t" 0).outcome = .ok () ∧
    (scanProject .nonDirectory [] "p" "n" "t" 0).notADirectoryReported = true :=
  ⟨rfl, rfl⟩

/-- C3 (amended): for every input path that exists but does not resolve to a
directory, `scanProject` reports the not-a-directory condition (spinner
failure and log) and returns early; the returned promise resolves normally,
with no generation, no build, and no filesystem change. -/
theorem C3_amended (fs : FS) (root projectName imageTag : String) (buildExit : Nat) :
    (scanProject .nonDirectory fs root projectName imageTag buildExit).outcome = .ok () ∧
    (scanProject .nonDirectory fs root projectName imageTag buildExit).notADirectoryReported = true ∧
    (scanProject .nonDirectory fs root projectName imageTag buildExit).fsAfter = fs ∧
    (scanProject .nonDirectory fs root projectName imageTag buildExit).generatedBuildFile = false ∧
    (scanProject .nonDirectory fs root projectName imageTag buildExit).ranBuild = false :=
  ⟨rfl, rfl, rfl, rfl, rfl⟩

/-- C9: once `deployDocker` has issued the run command, the driver's returned
promise resolves (`outcome = .ok ()`) no matter how the issued `docker run`
(or ssh-wrapped) command later finishes; a command failure is only logged by
the asynchronous callback, never propagated as a rejected outcome. -/
theorem C9_fire_and_forget (projectName imageTag : String)
    (remote user pw : Option String) (cmdResult : Except String String) :
    (deployDocker projectName imageTag remote user pw cmdResult).outcome = .ok () ∧
    (∀ e, cmdResult = .error e →
      (deployDocker projectName imageTag remote user pw cmdResult).callbackLoggedError = true) := by
  refine ⟨rfl, ?_⟩
  intro e he
  subst he
  rfl

/-- C9 witness: a failing remote run command still yields a resolved driver
outcome, with the failure logged by the callback. -/
theorem C9_fire_and_forget_witness :
    (deployDocker "demo" "v1" (some "host") (some "root") none
        (.error "exit 125")).outcome = .ok () ∧
    (deployDocker "demo" "v1" (some "host") (some "root") none
        (.error "exit 125")).callbackLoggedError = true :=
  ⟨(C9_fire_and_forget "demo" "v1" (some "host") (some "root") none (.error "exit 125")).1,
   (C9_fire_and_forget "demo" "v1" (some "host") (some "root") none (.error "exit 125")).2
     "exit 125" rfl⟩

/-- C7: for a Node.js project with no existing build file whose
`package.json` declares a dependency on `express` and whose `index.js`
contains `app.listen(8000)`, the synthesized build file equals the nodejs
template with `EXPOSE 3000` replaced by `EXPOSE 8000` and
`CMD ["npm", "start"]` replaced by `CMD ["node", "index.js"]`, trimmed of
leading and trailing whitespace; the second, `index.js`-triggered `EXPOSE`
substitution leaves the already-substituted text unchanged.  (The nodejs
template itself is modelled from the spec, see `nodejsTemplate`.) -/
theorem C7_express_scenario :
    generateDockerfile "nodejs" expressScenarioFS "proj" =
      .ok (writeFile expressScenarioFS "proj/Dockerfile"
        (.text (jsTrim expressSubstituted)), "proj/Dockerfile") ∧
    jsReplace expressSubstituted "EXPOSE 3000" "EXPOSE 8000" = expressSubstituted ∧
    strIncludes (jsTrim expressSubstituted) "EXPOSE 8000" = true ∧
    strIncludes (jsTrim expressSubstituted) "CMD [\"node\", \"index.js\"]" = true ∧
    strIncludes (jsTrim expressSubstituted) "EXPOSE 3000" = false :=
  ⟨rfl, rfl, by decide, by decide, by decide⟩

/-- C6: for every directory containing no file whose path ends
(case-sensitively) in `package.json`, the Scanner classifies the project as
unknown, reports the non-fatal unknown-project-type condition, synthesizes
no build file, runs no build, changes nothing, and resolves normally. -/
theorem C6_unknown_project_type (fs : FS) (root projectName imageTag : String)
    (buildExit : Nat)
    (h : ∀ e ∈ scanEntireDirectory root fs, strEndsWith e.1 "package.json" = false) :
    scanProject .directory fs root projectName imageTag buildExit =
      { fsAfter := fs, outcome := .ok (), notADirectoryReported := false,
        detectedNodeProject := false, reportedUnknownType := true,
        generatedBuildFile := false, ranBuild := false } := by
  have hpkg : (scanEntireDirectory root fs).any
      (fun e => strEndsWith e.1 "package.json") = false := by
    rw [List.any_eq_false]
    intro e he
    simp [h e he]
  simp [scanProject, hpkg]

/-- C6 witness: a tree holding only `p/readme.md` is classified unknown and
the scan resolves with nothing generated or built. -/
theorem C6_unknown_project_type_witness :
    scanProject .directory noManifestFS "p" "demo" "v1" 0 =
      { fsAfter := noManifestFS, outcome := .ok (), notADirectoryReported := false,
        detectedNodeProject := false, reportedUnknownType := true,
        generatedBuildFile := false, ranBuild := false } :=
  C6_unknown_project_type noManifestFS "p" "demo" "v1" 0 (by decide)

theorem webDeployment_in_bucket {root : String} {fs1 : FS}
    (h : pathExists fs1 (root ++ "/web-deployment.yaml") = true) :
    (scanYAMLFiles root fs1).2 ≠ [] := by
  rcases pathExists_iff.mp h with ⟨e, he, hep⟩
  have h1 : strEndsWith (root ++ "/web-deployment.yaml") "service.yaml" = false :=
    strEndsWith_append_short (by decide) (by decide)
  have h2 : strEndsWith (root ++ "/web-deployment.yaml") "deployment.yaml" = true :=
    strEndsWith_append_right (by decide)
  unfold scanYAMLFiles
  apply List.ne_nil_of_mem (a := root ++ "/web-deployment.yaml")
  apply List.mem_filter.mpr
  refine ⟨?_, ?_⟩
  · apply List.mem_map.mpr
    refine ⟨e, ?_, hep⟩
    unfold scanEntireDirectory
    apply List.mem_filter.mpr
    refine ⟨he, ?_⟩
    rw [hep]
    exact strStartsWith_append_append (by decide)
  · simp [h1, h2]

theorem manifestPhase_of_nonempty_dep {projectName root cwd : String} {fs1 : FS}
    {env : KubeEnv} (h : (scanYAMLFiles root fs1).2 ≠ []) :
    (deployKubernetesManifestPhase projectName root cwd fs1 env).fabricated = false ∧
    (deployKubernetesManifestPhase projectName root cwd fs1 env).fsAfter = fs1 := by
  have hne : (scanYAMLFiles root fs1).2.isEmpty = false := by
    rw [List.isEmpty_eq_false]
    exact h
  unfold deployKubernetesManifestPhase
  simp [hne]

/-- C10: if no `web-deployment.yaml` exists at the project root,
`deployKubernetes` rejects out of the image-rewrite step before any YAML
file is classified, fabricated or applied; and whenever the rewrite step
succeeds, the rewritten tree's deployment bucket contains
`web-deployment.yaml`, so it is non-empty and the default-manifest
fabrication branch cannot run. -/
theorem C10_fabrication_unreachable (projectName root cwd : String) (fs : FS)
    (env : KubeEnv) (hroot : ¬ root = "") :
    (lookupFile fs (root ++ "/web-deployment.yaml") = none →
      deployKubernetes projectName root cwd fs env =
        { fsAfter := fs, outcome := .error .webDeploymentUpdateFailed,
          classified := false, serviceYAMLs := [], deploymentYAMLs := [],
          fabricated := false, fabricatedWrites := [], applied := [] }) ∧
    (∀ fs1, updateWebDeploymentImage fs root projectName "latest" = .ok fs1 →
      (scanYAMLFiles root fs1).2 ≠ [] ∧
      (deployKubernetes projectName root cwd fs env).fabricated = false) := by
  constructor
  · intro hnone
    unfold deployKubernetes
    rw [if_neg hroot]
    have hupd : updateWebDeploymentImage fs root projectName "latest" = .error () := by
      unfold updateWebDeploymentImage
      rw [hnone]
    rw [hupd]
  · intro fs1 hupd
    have hex : pathExists fs1 (root ++ "/web-deployment.yaml") = true := by
      unfold updateWebDeploymentImage at hupd
      cases hl : lookupFile fs (root ++ "/web-deployment.yaml") with
      | none => rw [hl] at hupd; exact absurd hupd (by simp)
      | some c =>
        cases c with
        | deployment d =>
          rw [hl] at hupd
          simp only [Except.ok.injEq] at hupd
          rw [← hupd]
          exact pathExists_writeFile_self fs _ _
        | text s => rw [hl] at hupd; exact absurd hupd (by simp)
        | packageJson deps => rw [hl] at hupd; exact absurd hupd (by simp)
        | invalidJson => rw [hl] at hupd; exact absurd hupd (by simp)
    have hbucket := webDeployment_in_bucket hex
    refine ⟨hbucket, ?_⟩
    unfold deployKubernetes
    rw [if_neg hroot, hupd]
    exact (manifestPhase_of_nonempty_dep hbucket).1

/-- C10 witness: with no `web-deployment.yaml` the driver rejects untouched;
with one present the fabrication branch does not run. -/
theorem C10_fabrication_unreachable_witness :
    deployKubernetes "demo" "p" "/cwd" noManifestFS allOkEnv =
      { fsAfter := noManifestFS, outcome := .error .webDeploymentUpdateFailed,
        classified := false, serviceYAMLs := [], deploymentYAMLs := [],
        fabricated := false, fabricatedWrites := [], applied := [] } ∧
    (deployKubernetes "demo" "p" "/cwd" webDeploymentFS allOkEnv).fabricated = false :=
  ⟨(C10_fabrication_unreachable "demo" "p" "/cwd" noManifestFS allOkEnv
      (by decide)).1 rfl,
   ((C10_fabrication_unreachable "demo" "p" "/cwd" webDeploymentFS allOkEnv
      (by decide)).2
      (writeFile webDeploymentFS "p/web-deployment.yaml"
        (.deployment ⟨[⟨"demo:latest", some "IfNotPresent"⟩]⟩)) rfl).2⟩

/-- C5: the CLI `k8s` branch calls `deployKubernetes(projectName,
projectPath)` without the operator's tag, so the driver's behaviour is
identical for any two operator-supplied tags; and the rewrite step sets
every container of `web-deployment.yaml` to image
`<projectName>:latest` with `imagePullPolicy` `IfNotPresent`,
unconditionally. -/
theorem C5_tag_overridden_to_latest (projectName tagA tagB root cwd : String)
    (fs : FS) (env : KubeEnv) (d : DeploymentSpec)
    (hroot : ¬ root = "")
    (h : lookupFile fs (root ++ "/web-deployment.yaml") = some (.deployment d)) :
    deployKubernetesCli projectName tagA root cwd fs env =
      deployKubernetesCli projectName tagB root cwd fs env ∧
    lookupFile (deployKubernetesCli projectName tagA root cwd fs env).fsAfter
        (root ++ "/web-deployment.yaml") =
      some (.deployment ⟨d.containers.map (fun _ =>
        ⟨projectName ++ ":latest", some "IfNotPresent"⟩)⟩) := by
  refine ⟨rfl, ?_⟩
  have hstr : projectName ++ ":" ++ "latest" = projectName ++ ":latest" := by
    apply String.ext
    rw [str_data_append, str_data_append, str_data_append]
    simp
  have hupd : updateWebDeploymentImage fs root projectName "latest" =
      .ok (writeFile fs (root ++ "/web-deployment.yaml")
        (.deployment ⟨d.containers.map (fun _ =>
          ⟨projectName ++ ":latest", some "IfNotPresent"⟩)⟩)) := by
    unfold updateWebDeploymentImage
    rw [h, hstr]
  have hex : pathExists
      (writeFile fs (root ++ "/web-deployment.yaml")
        (.deployment ⟨d.containers.map (fun _ =>
          ⟨projectName ++ ":latest", some "IfNotPresent"⟩)⟩))
      (root ++ "/web-deployment.yaml") = true :=
    pathExists_writeFile_self fs _ _
  have hbucket := webDeployment_in_bucket hex
  unfold deployKubernetesCli deployKubernetes
  rw [if_neg hroot, hupd]
  rw [(manifestPhase_of_nonempty_dep hbucket).2]
  exact lookupFile_writeFile_self fs _ _

/-- C5 witness: for the operator tags `v1` and `v2` alike, the driver leaves
`web-deployment.yaml` at `demo:latest` with `IfNotPresent`. -/
theorem C5_tag_overridden_to_latest_witness :
    deployKubernetesCli "demo" "v1" "p" "/cwd" webDeploymentFS allOkEnv =
      deployKubernetesCli "demo" "v2" "p" "/cwd" webDeploymentFS allOkEnv ∧
    lookupFile (deployKubernetesCli "demo" "v1" "p" "/cwd" webDeploymentFS
        allOkEnv).fsAfter "p/web-deployment.yaml" =
      some (.deployment ⟨[⟨"demo:latest", some "IfNotPresent"⟩]⟩) := by
  have hh := C5_tag_overridden_to_latest "demo" "v1" "v2" "p" "/cwd"
    webDeploymentFS allOkEnv ⟨[⟨"old:1", none⟩]⟩ (by decide) rfl
  exact ⟨hh.1, by simpa using hh.2⟩

theorem strIncludes_append_left {a p : String} (b : String)
    (h : strIncludes a p = true) : strIncludes (a ++ b) p = true := by
  rw [strIncludes_iff] at h ⊢
  rw [str_data_append]
  exact h.trans (by simpa using List.infix_append [] a.data b.data)

theorem strIncludes_append_right (a : String) {b p : String}
    (h : strIncludes b p = true) : strIncludes (a ++ b) p = true := by
  rw [strIncludes_iff] at h ⊢
  rw [str_data_append]
  exact h.trans (by simpa using List.infix_append a.data b.data [])

theorem pathExists_writeFile_mono {fs : FS} {p : String}
    (h : pathExists fs p = true) (q : String) (c : FileContent) :
    pathExists (writeFile fs q c) p = true := by
  rcases pathExists_iff.mp h with ⟨e, he, hep⟩
  unfold writeFile
  split
  · apply pathExists_iff.mpr
    by_cases heq : e.1 = q
    · exact ⟨(q, c), List.mem_map.mpr ⟨e, he, by simp [heq]⟩, by rw [← hep, heq]⟩
    · exact ⟨e, List.mem_map.mpr ⟨e, he, by simp [heq]⟩, hep⟩
  · exact pathExists_iff.mpr ⟨e, by simp [he], hep⟩

theorem applyManifests_singleton {env : KubeEnv} {fs : FS} {f : String}
    (hex : pathExists fs f = true) (hok : env.applyExitOk f = true) :
    applyManifests env fs [f] = ([f], none) := by
  unfold applyManifests
  rw [hex, hok]
  simp [applyManifests]

theorem kubeApplyAndWait_snd {env : KubeEnv} {fs : FS} {dep svc : List String}
    {dl sl : List String}
    (h1 : applyManifests env fs dep = (dl, none))
    (h2 : applyManifests env fs svc = (sl, none)) :
    (kubeApplyAndWait env fs dep svc).2 = dl ++ sl := by
  unfold kubeApplyAndWait
  rw [h1, h2]
  cases waitForPodsReady env.samples defaultPodTimeout with
  | error e => rfl
  | ok u =>
    cases hp : env.getPodsOk <;> cases hs : env.getServicesOk <;> simp

theorem kubeDeploymentYAML_replicas_one (p : String) :
    strIncludes (kubeDeploymentYAML p "latest") "replicas: 1" = true := by
  unfold kubeDeploymentYAML
  apply strIncludes_append_left
  apply strIncludes_append_left
  apply strIncludes_append_left
  apply strIncludes_append_left
  apply strIncludes_append_left
  apply strIncludes_append_left
  apply strIncludes_append_left
  apply strIncludes_append_left
  apply strIncludes_append_left
  apply strIncludes_append_left
  apply strIncludes_append_right
  decide

theorem kubeDeploymentYAML_containerPort (p : String) :
    strIncludes (kubeDeploymentYAML p "latest") "containerPort: 80" = true := by
  unfold kubeDeploymentYAML
  apply strIncludes_append_right
  decide

theorem kubeServiceYAML_nodePort (p : String) :
    strIncludes (kubeServiceYAML p) "type: NodePort" = true := by
  unfold kubeServiceYAML
  apply strIncludes_append_right
  decide

theorem kubeServiceYAML_port80 (p : String) :
    strIncludes (kubeServiceYAML p) "port: 80" = true := by
  unfold kubeServiceYAML
  apply strIncludes_append_right
  decide

theorem kubeServiceYAML_targetPort80 (p : String) :
    strIncludes (kubeServiceYAML p) "targetPort: 80" = true := by
  unfold kubeServiceYAML
  apply strIncludes_append_right
  decide

/-- C1: whenever classification of the project tree yields no file ending in
`deployment.yaml` and none ending in `service.yaml`, the driver fabricates
exactly one deployment manifest (`<project>-deployment.yaml`, one replica,
container port 80) and exactly one service manifest
(`<project>-service.yaml`, NodePort, port 80 to target port 80) from the
fixed templates, writes both into the current working directory, and — when
the issued applies succeed — applies exactly those two files, deployment
first. -/
theorem C1_fabricates_default_manifests (projectName root cwd : String)
    (fs : FS) (env : KubeEnv)
    (hempty : scanYAMLFiles root fs = ([], []))
    (happly : ∀ f, env.applyExitOk f = true) :
    (deployKubernetesManifestPhase projectName root cwd fs env).fabricated = true ∧
    (deployKubernetesManifestPhase projectName root cwd fs env).fabricatedWrites =
      [(cwd ++ "/" ++ projectName ++ "-deployment.yaml", kubeDeploymentYAML projectName "latest"),
       (cwd ++ "/" ++ projectName ++ "-service.yaml", kubeServiceYAML projectName)] ∧
    (deployKubernetesManifestPhase projectName root cwd fs env).deploymentYAMLs =
      [cwd ++ "/" ++ projectName ++ "-deployment.yaml"] ∧
    (deployKubernetesManifestPhase projectName root cwd fs env).serviceYAMLs =
      [cwd ++ "/" ++ projectName ++ "-service.yaml"] ∧
    (deployKubernetesManifestPhase projectName root cwd fs env).fsAfter =
      generateKubernetesYAML projectName "latest" cwd fs ∧
    (deployKubernetesManifestPhase projectName root cwd fs env).applied =
      [cwd ++ "/" ++ projectName ++ "-deployment.yaml",
       cwd ++ "/" ++ projectName ++ "-service.yaml"] ∧
    strIncludes (kubeDeploymentYAML projectName "latest") "replicas: 1" = true ∧
    strIncludes (kubeDeploymentYAML projectName "latest") "containerPort: 80" = true ∧
    strIncludes (kubeServiceYAML projectName) "type: NodePort" = true ∧
    strIncludes (kubeServiceYAML projectName) "port: 80" = true ∧
    strIncludes (kubeServiceYAML projectName) "targetPort: 80" = true := by
  have hd1 : pathExists (generateKubernetesYAML projectName "latest" cwd fs)
      (cwd ++ "/" ++ projectName ++ "-deployment.yaml") = true := by
    unfold generateKubernetesYAML
    exact pathExists_writeFile_mono (pathExists_writeFile_self fs _ _) _ _
  have hs1 : pathExists (generateKubernetesYAML projectName "latest" cwd fs)
      (cwd ++ "/" ++ projectName ++ "-service.yaml") = true := by
    unfold generateKubernetesYAML
    exact pathExists_writeFile_self _ _ _
  have hda := applyManifests_singleton hd1 (happly _)
  have hsa := applyManifests_singleton hs1 (happly _)
  have happlied := kubeApplyAndWait_snd hda hsa
  refine ⟨?_, ?_, ?_, ?_, ?_, ?_,
    kubeDeploymentYAML_replicas_one projectName,
    kubeDeploymentYAML_containerPort projectName,
    kubeServiceYAML_nodePort projectName,
    kubeServiceYAML_port80 projectName,
    kubeServiceYAML_targetPort80 projectName⟩ <;>
    simp [deployKubernetesManifestPhase, hempty, happlied]

/-- C1 witness: the spec's `demo` scenario on an empty tree — exactly the two
default manifests are written into the working directory and applied,
deployment first. -/
theorem C1_fabricates_default_manifests_witness :
    (deployKubernetesManifestPhase "demo" "p" "/cwd" [] allOkEnv).fabricatedWrites =
      [("/cwd/demo-deployment.yaml", kubeDeploymentYAML "demo" "latest"),
       ("/cwd/demo-service.yaml", kubeServiceYAML "demo")] ∧
    (deployKubernetesManifestPhase "demo" "p" "/cwd" [] allOkEnv).applied =
      ["/cwd/demo-deployment.yaml", "/cwd/demo-service.yaml"] := by
  have hh := C1_fabricates_default_manifests "demo" "p" "/cwd" [] allOkEnv rfl
    (fun _ => rfl)
  exact ⟨by simpa using hh.2.1, by simpa using hh.2.2.2.2.2.1⟩

theorem waitFrom_ok_iff (samples : Nat → String) (timeout : Nat) :
    ∀ n i, timeout - 5 * i ≤ 5 * n →
      (waitForPodsReadyFrom samples timeout i = .ok () ↔
        ∃ j, i ≤ j ∧ 5 * j < timeout ∧ allPodsRunning (samples j) = true) := by
  intro n
  induction n with
  | zero =>
    intro i hb
    rw [waitForPodsReadyFrom]
    have h5 : ¬ 5 * i < timeout := by omega
    rw [dif_neg h5]
    constructor
    · intro h
      exact absurd h (by simp)
    · rintro ⟨j, hij, hjt, _⟩
      omega
  | succ n ih =>
    intro i hb
    rw [waitForPodsReadyFrom]
    by_cases h5 : 5 * i < timeout
    · rw [dif_pos h5]
      by_cases hA : allPodsRunning (samples i) = true
      · rw [if_pos hA]
        exact ⟨fun _ => ⟨i, Nat.le_refl i, h5, hA⟩, fun _ => rfl⟩
      · rw [if_neg hA]
        rw [ih (i + 1) (by omega)]
        constructor
        · rintro ⟨j, hij, hjt, hja⟩
          exact ⟨j, by omega, hjt, hja⟩
        · rintro ⟨j, hij, hjt, hja⟩
          have hne : ¬ i = j := by
            intro he
            exact hA (he ▸ hja)
          exact ⟨j, by omega, hjt, hja⟩
    · rw [dif_neg h5]
      constructor
      · intro h
        exact absurd h (by simp)
      · rintro ⟨j, hij, hjt, _⟩
        omega

/-- C4: with pod-status samples taken at 5-second intervals (sample `i` at
elapsed time `5 * i`), the readiness poll succeeds exactly when some sample
inside the timeout window has every parsed row's status column equal to
`Running`, and it fails with the readiness-timeout error exactly when every
sample inside the window contained a row whose status column was not
`Running`; the driver's default timeout is 300 seconds. -/
theorem C4_readiness_poll (samples : Nat → String) (timeout : Nat) :
    (waitForPodsReady samples timeout = .ok () ↔
      ∃ i, 5 * i < timeout ∧ allPodsRunning (samples i) = true) ∧
    (waitForPodsReady samples timeout = .error .readinessTimeout ↔
      ∀ i, 5 * i < timeout → allPodsRunning (samples i) = false) ∧
    defaultPodTimeout = 300 := by
  have hok := waitFrom_ok_iff samples timeout timeout 0 (by omega)
  have hok2 : waitForPodsReady samples timeout = .ok () ↔
      ∃ i, 5 * i < timeout ∧ allPodsRunning (samples i) = true := by
    unfold waitForPodsReady
    rw [hok]
    constructor
    · rintro ⟨j, _, hjt, hja⟩
      exact ⟨j, hjt, hja⟩
    · rintro ⟨j, hjt, hja⟩
      exact ⟨j, Nat.zero_le j, hjt, hja⟩
  refine ⟨hok2, ?_, rfl⟩
  have hdi : ∀ r : Except WaitErr Unit,
      r = .error .readinessTimeout ↔ ¬ r = .ok () := by
    intro r
    cases r with
    | ok u => cases u; simp
    | error e => cases e; simp
  rw [hdi, hok2]
  rw [not_exists]
  constructor
  · intro h i hi
    have := h i
    rw [not_and] at this
    have := this hi
    simpa using this
  · intro h i
    rw [not_and]
    intro hi
    simp [h i hi]

/-- C4 witness: a sample train that is `Pending` at time 0 and `Running`
from time 5 succeeds within the default 300-second window, while a train
that stays `Pending` times out against a 12-second window. -/
theorem C4_readiness_poll_witness :
    waitForPodsReady (fun i => if i = 0 then pendingSample else runningSample)
      300 = .ok () ∧
    waitForPodsReady (fun _ => pendingSample) 12 = .error .readinessTimeout := by
  constructor
  · exact (C4_readiness_poll
      (fun i => if i = 0 then pendingSample else runningSample) 300).1.mpr
      ⟨1, by omega, by decide⟩
  · exact (C4_readiness_poll (fun _ => pendingSample) 12).2.1.mpr
      (fun i _ => by decide)

/-- C8: if a build file named `Dockerfile` already exists at the project
root, the Synthesizer returns its path with no write; and re-scanning is
idempotent on the filesystem: a second `scanProject` of the same directory
leaves the first scan's filesystem — in particular any build file's
content — unchanged. -/
theorem C8_rescan_idempotent (fs : FS) (root projectName imageTag : String)
    (buildExit : Nat) :
    (pathExists fs (root ++ "/Dockerfile") = true →
      generateDockerfile "nodejs" fs root = .ok (fs, root ++ "/Dockerfile")) ∧
    (scanProject .directory
        (scanProject .directory fs root projectName imageTag buildExit).fsAfter
        root projectName imageTag buildExit).fsAfter =
      (scanProject .directory fs root projectName imageTag buildExit).fsAfter := by
  constructor
  · intro h
    simp [generateDockerfile, h]
  · by_cases hP : (scanEntireDirectory root fs).any
        (fun e => strEndsWith e.1 "package.json") = true
    · by_cases hD : (scanEntireDirectory root fs).any
          (fun e => strEndsWith (strToLower e.1) "dockerfile") = true
      · have h1 : (scanProject .directory fs root projectName imageTag
            buildExit).fsAfter = fs := by
          simp [scanProject, hP, hD]
        rw [h1, h1]
      · have hnotex : pathExists fs (root ++ "/Dockerfile") = false := by
          by_contra hc
          rw [Bool.not_eq_false] at hc
          rcases pathExists_iff.mp hc with ⟨e, he, hep⟩
          have hmem : e ∈ scanEntireDirectory root fs := by
            unfold scanEntireDirectory
            exact List.mem_filter.mpr
              ⟨he, by rw [hep]; exact strStartsWith_append_append (by decide)⟩
          have hsuffix : strEndsWith (strToLower e.1) "dockerfile" = true := by
            rw [hep]
            exact strEndsWith_toLower_append (by decide)
          exact absurd (List.any_eq_true.mpr ⟨e, hmem, hsuffix⟩) hD
        cases hA : analyzeNodeProject fs root with
        | error u =>
          have h1 : (scanProject .directory fs root projectName imageTag
              buildExit).fsAfter = fs := by
            simp [scanProject, hP, hD, generateDockerfile, hnotex, hA]
          rw [h1, h1]
        | ok a =>
          have hwf : writeFile fs (root ++ "/Dockerfile")
              (.text (nodejsDockerfileContent a)) =
              fs ++ [(root ++ "/Dockerfile", .text (nodejsDockerfileContent a))] := by
            simp [writeFile, hnotex]
          have h1 : (scanProject .directory fs root projectName imageTag
              buildExit).fsAfter =
              fs ++ [(root ++ "/Dockerfile", .text (nodejsDockerfileContent a))] := by
            simp [scanProject, hP, hD, generateDockerfile, hnotex, hA, hwf]
          have hscan2 : scanEntireDirectory root
              (fs ++ [(root ++ "/Dockerfile", .text (nodejsDockerfileContent a))]) =
              scanEntireDirectory root fs ++
                [(root ++ "/Dockerfile", .text (nodejsDockerfileContent a))] := by
            unfold scanEntireDirectory
            rw [List.filter_append]
            have : strStartsWith (root ++ "/Dockerfile") (root ++ "/") = true :=
              strStartsWith_append_append (by decide)
            simp [this]
          have hD2 : (scanEntireDirectory root
              (fs ++ [(root ++ "/Dockerfile",
                .text (nodejsDockerfileContent a))])).any
              (fun e => strEndsWith (strToLower e.1) "dockerfile") = true := by
            rw [hscan2, List.any_append]
            have : strEndsWith (strToLower (root ++ "/Dockerfile"))
                "dockerfile" = true := strEndsWith_toLower_append (by decide)
            simp [this]
          have hP2 : (scanEntireDirectory root
              (fs ++ [(root ++ "/Dockerfile",
                .text (nodejsDockerfileContent a))])).any
              (fun e => strEndsWith e.1 "package.json") = true := by
            rw [hscan2, List.any_append, hP]
            simp
          have h2 : (scanProject .directory
              (fs ++ [(root ++ "/Dockerfile", .text (nodejsDockerfileContent a))])
              root projectName imageTag buildExit).fsAfter =
              fs ++ [(root ++ "/Dockerfile", .text (nodejsDockerfileContent a))] := by
            simp [scanProject, hP2, hD2]
          rw [h1, h2]
    · have h1 : (scanProject .directory fs root projectName imageTag
          buildExit).fsAfter = fs := by
        rw [Bool.not_eq_true] at hP
        simp [scanProject, hP]
      rw [h1, h1]

/-- C8 witness: the conditional branch at a tree whose root already holds a
`Dockerfile`, and the idempotence instance at a bare Node.js tree whose
first scan generates one. -/
theorem C8_rescan_idempotent_witness :
    generateDockerfile "nodejs" rootDockerfileFS "p" =
      .ok (rootDockerfileFS, "p/Dockerfile") ∧
    (scanProject .directory
        (scanProject .directory bareNodeFS "p" "demo" "v1" 0).fsAfter
        "p" "demo" "v1" 0).fsAfter =
      (scanProject .directory bareNodeFS "p" "demo" "v1" 0).fsAfter :=
  ⟨(C8_rescan_idempotent rootDockerfileFS "p" "demo" "v1" 0).1 rfl,
   (C8_rescan_idempotent bareNodeFS "p" "demo" "v1" 0).2⟩
